import Mathlib

/-!
Verification of the `ExpenseCard` component of PinkSheep27/expense-tracker.

The repository holds two variants of one React component:
  * `src/src/components/ExpenseCard/ExpenseCard.tsx`
  * `src/unnamed/part_000`
Each accepts an expense record (`id`, `description`, `amount`, `category`,
`date`) plus display flags (`highlighted`, `showCategory`, optional
`onDelete` callback) and produces a DOM tree.  This file gives a shallow
embedding: the DOM output is an inductive `Node` tree, the click handler is
a trace of actions, and the two platform formatters the component calls
(`Intl.NumberFormat('en-US', \x7bstyle:'currency',currency:'USD'\x7d)` and
`Date` parsing followed by `toLocaleDateString('en-US',
\x7bmonth:'short',day:'numeric',year:'numeric'\x7d)`) are modelled as pure
functions, in a fixed en-US/UTC environment.

Modelling conventions:
  * JS `amount` is a float in dollars; the embedding carries amounts as an
    integer number of cents, covering every value exactly representable at
    two decimals (all of the spec's examples).  `Intl.NumberFormat` USD
    formatting of such a value is sign, `$`, the dollar digits grouped in
    threes by commas, `.`, and two cent digits.
  * JS `new Date(s)` parsing is modelled on its ISO `YYYY-MM-DD`
    calendar-date subset: four year digits, two month digits, two day
    digits, field ranges validated (as V8 does for ISO input); every other
    string is treated as an invalid date.  A date-only ISO string is read
    as UTC midnight and formatted in UTC.
  * The optional `onDelete` callback is modelled by its presence flag; an
    invocation `onDelete(id)` is recorded in the click-handler trace.
-/

namespace ExpenseTracker

/-- Decimal digit character: `digitChar 3 = '3'`. -/
def digitChar (n : Nat) : Char := Char.ofNat (48 + n)

/-- Fuelled accumulator loop printing `n` in decimal, most significant digit
first.  Fuel-structural so that it evaluates by kernel reduction. -/
def natToDecAux : Nat → Nat → List Char → List Char
  | 0, _, acc => acc
  | f + 1, n, acc =>
    if n = 0 then acc else natToDecAux f (n / 10) (digitChar (n % 10) :: acc)

/-- Decimal representation of a natural number, as JS number-to-string
printing produces it (no padding, no sign). -/
def natToDec (n : Nat) : String :=
  if n = 0 then "0" else String.mk (natToDecAux n n [])

/-- Split a character list at every occurrence of a separator. -/
def splitAtChar (sep : Char) : List Char → List (List Char)
  | [] => [[]]
  | c :: rest =>
    if c = sep then [] :: splitAtChar sep rest
    else
      match splitAtChar sep rest with
      | [] => [[c]]
      | g :: gs => (c :: g) :: gs

/-- Split at every `'-'` (the separator of ISO dates). -/
def splitDash : List Char → List (List Char) := splitAtChar '-'

/-- The space-separated tokens of a `className` string. -/
def classTokens (s : String) : List String :=
  (splitAtChar ' ' s.data).map String.mk

/-- Numeric value of a digit character. -/
def digitVal (c : Char) : Nat := c.toNat - 48

/-- Value of a digit string read in base 10. -/
def decValue (l : List Char) : Nat := l.foldl (fun a c => 10 * a + digitVal c) 0

/-- Gregorian leap-year test, as the JS `Date` calendar uses it. -/
def isLeapYear (y : Nat) : Bool :=
  (y % 4 == 0 && y % 100 != 0) || y % 400 == 0

/-- Days in a month of the proleptic Gregorian calendar. -/
def daysInMonth (y m : Nat) : Nat :=
  if m = 2 then (if isLeapYear y then 29 else 28)
  else if m = 4 ∨ m = 6 ∨ m = 9 ∨ m = 11 then 30
  else 31

/-- Model of `new Date(s)` on the ISO `YYYY-MM-DD` subset: `some (y, m, d)`
when the string is a valid calendar date, `none` for an invalid date. -/
def parseDate (s : String) : Option (Nat × Nat × Nat) :=
  match splitDash s.data with
  | [ys, ms, ds] =>
    if ys.length = 4 ∧ ms.length = 2 ∧ ds.length = 2
        ∧ (ys ++ ms ++ ds).all Char.isDigit then
      let y := decValue ys
      let m := decValue ms
      let d := decValue ds
      if 1 ≤ m ∧ m ≤ 12 ∧ 1 ≤ d ∧ d ≤ daysInMonth y m then
        some (y, m, d)
      else none
    else none
  | _ => none

/-- en-US short month names, as `toLocaleDateString` with `month: 'short'`
produces them. -/
def monthShort : Nat → String
  | 1 => "Jan"
  | 2 => "Feb"
  | 3 => "Mar"
  | 4 => "Apr"
  | 5 => "May"
  | 6 => "Jun"
  | 7 => "Jul"
  | 8 => "Aug"
  | 9 => "Sep"
  | 10 => "Oct"
  | 11 => "Nov"
  | 12 => "Dec"
  | _ => ""

/-- Model of the component's `formattedDate` constant:
`new Date(date).toLocaleDateString('en-US',
\x7bmonth:'short', day:'numeric', year:'numeric'\x7d)` in an en-US/UTC
environment; an unparseable string yields the platform text
`"Invalid Date"`. -/
def formattedDate (s : String) : String :=
  match parseDate s with
  | some (y, m, d) => monthShort m ++ " " ++ natToDec d ++ ", " ++ natToDec y
  | none => "Invalid Date"

/-- Group a reversed digit list into chunks of three, least significant
chunk first: `chunk3 "4321".data = [[4,3,2],[1]]` (digit characters). -/
def chunk3 : List Char → List (List Char)
  | a :: b :: c :: d :: rest => [a, b, c] :: chunk3 (d :: rest)
  | l => [l]

/-- Join digit groups with the en-US thousands separator. -/
def joinComma : List String → String
  | [] => ""
  | [g] => g
  | g :: gs => g ++ "," ++ joinComma gs

/-- The comma-separated groups of a digit string, most significant first. -/
def groupsOf (s : String) : List String :=
  ((chunk3 s.data.reverse).map (fun g => String.mk g.reverse)).reverse

/-- Insert en-US thousands separators into a digit string. -/
def groupThousands (s : String) : String := joinComma (groupsOf s)

/-- Two-digit cent field. -/
def pad2 (n : Nat) : String :=
  if n < 10 then "0" ++ natToDec n else natToDec n

/-- Model of `new Intl.NumberFormat('en-US',
\x7bstyle:'currency', currency:'USD'\x7d).format`, with the amount given as
an integer number of cents. -/
def formatUSD (cents : Int) : String :=
  (if cents < 0 then "-" else "") ++ "$"
    ++ groupThousands (natToDec (cents.natAbs / 100)) ++ "."
    ++ pad2 (cents.natAbs % 100)

/-- `export type ExpenseCategory = 'Food' | 'Transportation' |
'Entertainment' | 'Other'`. -/
inductive ExpenseCategory where
  | Food
  | Transportation
  | Entertainment
  | Other

/-- The raw string value of a category, as the badge displays it. -/
def ExpenseCategory.text : ExpenseCategory → String
  | .Food => "Food"
  | .Transportation => "Transportation"
  | .Entertainment => "Entertainment"
  | .Other => "Other"

/-- `ExpenseCardProps`.  `amount` is carried in cents (see the header
note); `onDelete` records whether the optional callback was supplied; the
two optional booleans are `none` when omitted, their source defaults
(`highlighted = false`, `showCategory = true`) being applied inside the
component, as in the destructuring of the source. -/
structure ExpenseCardProps where
  id : Int
  description : String
  amount : Int
  category : ExpenseCategory
  date : String
  onDelete : Bool
  highlighted : Option Bool
  showCategory : Option Bool

/-- One observable step of the click handler: calling
`e.stopPropagation()`, or invoking the `onDelete` callback with an id. -/
inductive ClickAction where
  | stopPropagation : ClickAction
  | invoke : Int → ClickAction

/-- Model of the component's `handleDelete`: the ordered trace of effects
of one click on the delete control —
`e.stopPropagation(); if (onDelete) \x7b onDelete(id); \x7d`. -/
def handleDelete (p : ExpenseCardProps) : List ClickAction :=
  [ClickAction.stopPropagation]
    ++ (if p.onDelete then [ClickAction.invoke p.id] else [])

/-- Does a click action invoke the `onDelete` callback? -/
def isInvoke : ClickAction → Bool
  | .invoke _ => true
  | _ => false

/-- Rendered DOM tree: a text node, or an element with a tag, a
`className`, further attributes (in source order), and children.  The
`onClick` handler of the delete button is recorded as an
`("onClick", "handleDelete")` attribute; its inline `style` object as a
`("style", ...)` attribute. -/
inductive Node where
  | text : String → Node
  | elem : String → String → List (String × String) → List Node → Node

/-- Children of a node. -/
def childrenOf : Node → List Node
  | .text _ => []
  | .elem _ _ _ cs => cs

/-- All nodes of a tree of depth at most three — the depth of both
`ExpenseCard` renders (article / div / leaf element / text). -/
def allNodes (n : Node) : List Node :=
  let c1 := childrenOf n
  let c2 := c1.flatMap childrenOf
  let c3 := c2.flatMap childrenOf
  n :: c1 ++ c2 ++ c3

/-- Tag of the root element. -/
def rootTag : Node → String
  | .text _ => ""
  | .elem t _ _ _ => t

/-- `className` of the root element. -/
def rootClass : Node → String
  | .text _ => ""
  | .elem _ c _ _ => c

/-- Texts of all `span` elements (the category badge is the only span). -/
def spanTexts (n : Node) : List String :=
  (allNodes n).filterMap fun c =>
    match c with
    | .elem "span" _ _ [.text s] => some s
    | _ => none

/-- Texts of all `time` elements (the formatted date display). -/
def timeTexts (n : Node) : List String :=
  (allNodes n).filterMap fun c =>
    match c with
    | .elem "time" _ _ [.text s] => some s
    | _ => none

/-- Values of the `dateTime` attribute over all `time` elements. -/
def timeDateTimes (n : Node) : List String :=
  (allNodes n).filterMap fun c =>
    match c with
    | .elem "time" _ a _ => a.lookup "dateTime"
    | _ => none

/-- Texts of all `h3` elements (the description display). -/
def h3Texts (n : Node) : List String :=
  (allNodes n).filterMap fun c =>
    match c with
    | .elem "h3" _ _ [.text s] => some s
    | _ => none

/-- Texts of all `p` elements (the formatted amount display). -/
def pTexts (n : Node) : List String :=
  (allNodes n).filterMap fun c =>
    match c with
    | .elem "p" _ _ [.text s] => some s
    | _ => none

/-- Is this node the delete control: a `button` with the
`aria-label "Delete expense"` and the `handleDelete` click handler? -/
def isDeleteButton : Node → Bool
  | .elem "button" _ a _ =>
    a.contains ("onClick", "handleDelete")
      && a.contains ("aria-label", "Delete expense")
  | _ => false

/-- Does the rendered tree contain a delete control? -/
def hasDeleteControl (n : Node) : Bool := (allNodes n).any isDeleteButton

/-- First child of the article: the header `div`. -/
def headerNode (n : Node) : Node := (childrenOf n).getD 0 (Node.text "")

/-- Second child of the article: the body `div`. -/
def bodyNode (n : Node) : Node := (childrenOf n).getD 1 (Node.text "")

/-- The strings of the direct text-node children of a node. -/
def directTexts (n : Node) : List String :=
  (childrenOf n).filterMap fun c =>
    match c with
    | .text s => some s
    | _ => none

/-- Serialisation of the inline `style` object of the delete button in
`ExpenseCard.tsx`. -/
def tsxButtonStyle : String :=
  "position:absolute;top:8px;right:8px;background:#ef4444;color:white;"
    ++ "border:none;border-radius:50%;width:24px;height:24px;"
    ++ "cursor:pointer;font-size:16px;display:flex;align-items:center;"
    ++ "justify-content:center"

/-- Render of `src/src/components/ExpenseCard/ExpenseCard.tsx`.  The two
`// UPDATED` lines inside JSX child positions (header and body) are literal
text nodes; the one directly after `return (` is a JS comment and renders
nothing.  The template literal class is `expense-card ` followed by the
conditional modifier, keeping its trailing space when not highlighted. -/
def ExpenseCard_tsx (p : ExpenseCardProps) : Node :=
  let highlighted := p.highlighted.getD false
  let showCategory := p.showCategory.getD true
  Node.elem "article"
    ("expense-card "
      ++ (if highlighted then "expense-card--highlighted" else "")) []
    [Node.elem "div" "expense-header" []
      ([Node.text "// UPDATED"]
        ++ (if showCategory then
              [Node.elem "span" "expense-category" []
                [Node.text p.category.text]]
            else [])
        ++ [Node.elem "time" "expense-date" [("dateTime", p.date)]
              [Node.text (formattedDate p.date)]]),
     Node.elem "div" "expense-body" []
      ([Node.elem "h3" "expense-description" [] [Node.text p.description],
        Node.elem "p" "expense-amount" [] [Node.text (formatUSD p.amount)],
        Node.text "// UPDATED"]
        ++ (if p.onDelete then
              [Node.elem "button" "expense-delete"
                [("onClick", "handleDelete"),
                 ("aria-label", "Delete expense"),
                 ("style", tsxButtonStyle)]
                [Node.text "×"]]
            else []))]

/-- The multi-line Tailwind class of the `part_000` article, up to the
interpolation. -/
def part0ArticleClassBase : String :=
  "\n      relative\n      bg-white rounded-lg p-4 mb-3 shadow-md\n      "
    ++ "transition-all duration-200 border\n      hover:shadow-lg\n      "

/-- Tailwind class of the `part_000` category badge. -/
def part0SpanClass : String :=
  "inline-block bg-blue-500 text-white px-2 py-1 rounded text-xs "
    ++ "font-semibold uppercase"

/-- Multi-line Tailwind class of the `part_000` delete button. -/
def part0ButtonClass : String :=
  "\n            absolute top-2 right-2\n            "
    ++ "bg-red-500 hover:bg-red-600\n            "
    ++ "text-white border-0 rounded-full\n            "
    ++ "w-6 h-6 cursor-pointer text-base\n            "
    ++ "flex items-center justify-center\n            "
    ++ "transition-colors duration-200\n            "
    ++ "focus:outline-none focus:ring-2 focus:ring-red-400\n            "

/-- Render of `src/unnamed/part_000`: same structure as the `.tsx`
variant minus the `// UPDATED` text nodes, with Tailwind classes, no inline
style on the button, and `x` as the delete glyph. -/
def ExpenseCard_part0 (p : ExpenseCardProps) : Node :=
  let highlighted := p.highlighted.getD false
  let showCategory := p.showCategory.getD true
  Node.elem "article"
    (part0ArticleClassBase
      ++ (if highlighted then "border-orange-500 bg-orange-50"
          else "border-blue-500")) []
    [Node.elem "div" "flex justify-between items-center mb-2" []
      ((if showCategory then
          [Node.elem "span" part0SpanClass [] [Node.text p.category.text]]
        else [])
        ++ [Node.elem "time" "text-gray-500 text-sm" [("dateTime", p.date)]
              [Node.text (formattedDate p.date)]]),
     Node.elem "div" "space-y-2" []
      ([Node.elem "h3" "mb-2 text-base font-medium text-gray-900" []
          [Node.text p.description],
        Node.elem "p" "text-green-600 text-lg font-bold m-0" []
          [Node.text (formatUSD p.amount)]]
        ++ (if p.onDelete then
              [Node.elem "button" part0ButtonClass
                [("onClick", "handleDelete"),
                 ("aria-label", "Delete expense")]
                [Node.text "x"]]
            else []))]

/-- A concrete sample record used by witnesses and counterexamples. -/
def sampleProps : ExpenseCardProps :=
  { id := 7, description := "Lunch", amount := 123450,
    category := ExpenseCategory.Food, date := "2024-03-05",
    onDelete := true, highlighted := none, showCategory := none }

/-- Drop the inline-style attribute (the only non-semantic attribute). -/
def scrubAttrs (a : List (String × String)) : List (String × String) :=
  a.filter fun kv => kv.1 != "style"

/-- Erase styling (className, inline style) from a leaf element. -/
def stripNode2 : Node → Node
  | .text s => .text s
  | .elem t _ a cs => .elem t "" (scrubAttrs a) cs

/-- Erase styling one level down. -/
def stripNode1 : Node → Node
  | .text s => .text s
  | .elem t _ a cs => .elem t "" (scrubAttrs a) (cs.map stripNode2)

/-- Erase styling from a rendered card: className and inline-style
attributes are cleared at every level of the depth-three render (the leaf
elements' children are bare text nodes, which carry no styling). -/
def stripStyle : Node → Node
  | .text s => .text s
  | .elem t _ a cs => .elem t "" (scrubAttrs a) (cs.map stripNode1)

/-- Is this node one of the literal `// UPDATED` text nodes? -/
def isUpdatedText : Node → Bool
  | .text s => s == "// UPDATED"
  | _ => false

/-- Replace the delete button's glyph by the `part_000` one (`x`). -/
def normGlyph : Node → Node
  | .elem "button" c a _ => .elem "button" c a [Node.text "x"]
  | n => n

/-- Inside one of the card's two `div`s: drop `// UPDATED` text nodes and
normalise the delete glyph. -/
def normDiv : Node → Node
  | .elem t c a cs =>
    .elem t c a ((cs.filter fun n => !isUpdatedText n).map normGlyph)
  | n => n

/-- The two extra-textual differences of the `.tsx` variant, removed: drop
its `// UPDATED` text nodes and normalise the delete glyph `×` to `x`. -/
def dropUpdatedMarks : Node → Node
  | .elem t c a cs => .elem t c a (cs.map normDiv)
  | n => n

/-- The twelve en-US short month names. -/
def monthNames : List String :=
  ["Jan", "Feb", "Mar", "Apr", "May", "Jun",
   "Jul", "Aug", "Sep", "Oct", "Nov", "Dec"]

/-- Formalisation of the spec's `Mon D, YYYY` date shape: a short month
name, a space, a nonempty digit run, a comma and space, and a four-digit
year.  Decomposed from the right so it is decidable on concrete strings. -/
def matchesMonthDayYear4 (s : String) : Bool :=
  let r := s.data.reverse
  let ys := r.take 4
  (ys.length == 4 && ys.all Char.isDigit)
    && match r.drop 4 with
       | ' ' :: ',' :: rest =>
         let ds := rest.takeWhile Char.isDigit
         !ds.isEmpty
           && (match rest.drop ds.length with
               | ' ' :: monRev => monthNames.contains (String.mk monRev.reverse)
               | _ => false)
       | _ => false

/-- The component's render threaded through its (empty) retained state: the
source declares no hook, so one call reads nothing and stores nothing. -/
def renderWithState (p : ExpenseCardProps) (s : Unit) : Node × Unit :=
  (ExpenseCard_tsx p, s)

/-- A record whose `date` prop is not date-parseable. -/
def invalidDateProps : ExpenseCardProps :=
  { sampleProps with date := "not-a-date" }

/-- The counterexample record for the year-width edge of the date format:
a valid ISO date whose year has leading zeros. -/
def ancientDateProps : ExpenseCardProps :=
  { sampleProps with date := "0005-03-05" }

theorem tsx_rootTag (p : ExpenseCardProps) :
    rootTag (ExpenseCard_tsx p) = "article" := rfl

theorem part0_rootTag (p : ExpenseCardProps) :
    rootTag (ExpenseCard_part0 p) = "article" := rfl

theorem tsx_timeTexts (p : ExpenseCardProps) :
    timeTexts (ExpenseCard_tsx p) = [formattedDate p.date] := by
  rcases p with ⟨i, de, am, ca, da, od, hl, sc⟩
  cases od <;> rcases sc with _ | (_ | _) <;> rfl

theorem part0_timeTexts (p : ExpenseCardProps) :
    timeTexts (ExpenseCard_part0 p) = [formattedDate p.date] := by
  rcases p with ⟨i, de, am, ca, da, od, hl, sc⟩
  cases od <;> rcases sc with _ | (_ | _) <;> rfl

theorem tsx_timeDateTimes (p : ExpenseCardProps) :
    timeDateTimes (ExpenseCard_tsx p) = [p.date] := by
  rcases p with ⟨i, de, am, ca, da, od, hl, sc⟩
  cases od <;> rcases sc with _ | (_ | _) <;> rfl

theorem part0_timeDateTimes (p : ExpenseCardProps) :
    timeDateTimes (ExpenseCard_part0 p) = [p.date] := by
  rcases p with ⟨i, de, am, ca, da, od, hl, sc⟩
  cases od <;> rcases sc with _ | (_ | _) <;> rfl

theorem tsx_h3Texts (p : ExpenseCardProps) :
    h3Texts (ExpenseCard_tsx p) = [p.description] := by
  rcases p with ⟨i, de, am, ca, da, od, hl, sc⟩
  cases od <;> rcases sc with _ | (_ | _) <;> rfl

theorem part0_h3Texts (p : ExpenseCardProps) :
    h3Texts (ExpenseCard_part0 p) = [p.description] := by
  rcases p with ⟨i, de, am, ca, da, od, hl, sc⟩
  cases od <;> rcases sc with _ | (_ | _) <;> rfl

theorem tsx_pTexts (p : ExpenseCardProps) :
    pTexts (ExpenseCard_tsx p) = [formatUSD p.amount] := by
  rcases p with ⟨i, de, am, ca, da, od, hl, sc⟩
  cases od <;> rcases sc with _ | (_ | _) <;> rfl

theorem part0_pTexts (p : ExpenseCardProps) :
    pTexts (ExpenseCard_part0 p) = [formatUSD p.amount] := by
  rcases p with ⟨i, de, am, ca, da, od, hl, sc⟩
  cases od <;> rcases sc with _ | (_ | _) <;> rfl

theorem tsx_spanTexts (p : ExpenseCardProps) :
    spanTexts (ExpenseCard_tsx p)
      = if p.showCategory.getD true then [p.category.text] else [] := by
  rcases p with ⟨i, de, am, ca, da, od, hl, sc⟩
  cases od <;> rcases sc with _ | (_ | _) <;> rfl

theorem part0_spanTexts (p : ExpenseCardProps) :
    spanTexts (ExpenseCard_part0 p)
      = if p.showCategory.getD true then [p.category.text] else [] := by
  rcases p with ⟨i, de, am, ca, da, od, hl, sc⟩
  cases od <;> rcases sc with _ | (_ | _) <;> rfl

theorem tsx_hasDeleteControl (p : ExpenseCardProps) :
    hasDeleteControl (ExpenseCard_tsx p) = p.onDelete := by
  rcases p with ⟨i, de, am, ca, da, od, hl, sc⟩
  cases od <;> rcases sc with _ | (_ | _) <;> rfl

theorem part0_hasDeleteControl (p : ExpenseCardProps) :
    hasDeleteControl (ExpenseCard_part0 p) = p.onDelete := by
  rcases p with ⟨i, de, am, ca, da, od, hl, sc⟩
  cases od <;> rcases sc with _ | (_ | _) <;> rfl

theorem strip_eq_norm (p : ExpenseCardProps) :
    dropUpdatedMarks (stripStyle (ExpenseCard_tsx p))
      = stripStyle (ExpenseCard_part0 p) := by
  rcases p with ⟨i, de, am, ca, da, od, hl, sc⟩
  cases od <;> rcases sc with _ | (_ | _) <;> rfl

theorem natToDecAux_eq_digits (f : Nat) :
    ∀ (n : Nat) (acc : List Char), n < 10 ^ f →
      natToDecAux f n acc = ((Nat.digits 10 n).map digitChar).reverse ++ acc := by
  induction f with
  | zero =>
    intro n acc h
    have hn : n = 0 := by simpa using h
    subst hn
    simp [natToDecAux]
  | succ f ih =>
    intro n acc h
    by_cases hn : n = 0
    · subst hn; simp [natToDecAux]
    · have hdiv : n / 10 < 10 ^ f := by
        rw [Nat.div_lt_iff_lt_mul (by norm_num)]
        calc n < 10 ^ (f + 1) := h
          _ = 10 ^ f * 10 := by rw [pow_succ]
      rw [natToDecAux, if_neg hn, ih (n / 10) _ hdiv,
        Nat.digits_def' (by norm_num : 1 < 10) (Nat.pos_of_ne_zero hn)]
      simp

theorem natToDec_eq_digits (n : Nat) (hn : n ≠ 0) :
    natToDec n = String.mk ((Nat.digits 10 n).map digitChar).reverse := by
  rw [natToDec, if_neg hn,
    natToDecAux_eq_digits n n [] (Nat.lt_pow_self (by norm_num) n)]
  simp

theorem natToDec_length (n : Nat) (hn : n ≠ 0) :
    (natToDec n).length = Nat.log 10 n + 1 := by
  rw [natToDec_eq_digits n hn]
  simp [String.length, Nat.digits_len 10 n (by norm_num) hn]

/-- The year field of the en-US date display has four digits exactly on the
years 1000–9999. -/
theorem natToDec_length_four (y : Nat) (h1 : 1000 ≤ y) (h2 : y ≤ 9999) :
    (natToDec y).length = 4 := by
  rw [natToDec_length y (by omega)]
  have hlog : Nat.log 10 y = 3 :=
    Nat.log_eq_of_pow_le_of_lt_pow
      (le_trans (by norm_num) h1)
      (lt_of_le_of_lt h2 (by norm_num))
  omega

theorem natToDec_length_one (n : Nat) (h : n < 10) :
    (natToDec n).length = 1 := by
  by_cases hn : n = 0
  · subst hn; rfl
  · rw [natToDec_length n hn]
    have : Nat.log 10 n = 0 := Nat.log_eq_zero_iff.mpr (Or.inl h)
    omega

theorem digitChar_isDigit (d : Nat) (h : d < 10) :
    (digitChar d).isDigit = true := by
  interval_cases d <;> decide

theorem natToDec_all_digits (n : Nat) :
    (natToDec n).data.all Char.isDigit = true := by
  by_cases hn : n = 0
  · subst hn; decide
  · rw [natToDec_eq_digits n hn]
    rw [List.all_eq_true]
    intro c hc
    rw [show (String.mk ((Nat.digits 10 n).map digitChar).reverse).data
        = ((Nat.digits 10 n).map digitChar).reverse from rfl,
      List.mem_reverse] at hc
    obtain ⟨d, hd, rfl⟩ := List.mem_map.mp hc
    exact digitChar_isDigit d (Nat.digits_lt_base (by norm_num) hd)

theorem natToDec_ne_nil (n : Nat) : (natToDec n).data ≠ [] := by
  by_cases hn : n = 0
  · subst hn; decide
  · rw [natToDec_eq_digits n hn]
    simp [Nat.digits_ne_nil_iff_ne_zero.mpr hn]

theorem chunk3_ne_nil : ∀ l : List Char, chunk3 l ≠ []
  | [] => by simp [chunk3]
  | [_] => by simp [chunk3]
  | [_, _] => by simp [chunk3]
  | [_, _, _] => by simp [chunk3]
  | _ :: _ :: _ :: _ :: _ => by simp [chunk3]

theorem chunk3_mem_length :
    ∀ l : List Char, l ≠ [] → ∀ g ∈ chunk3 l, 1 ≤ g.length ∧ g.length ≤ 3
  | [], h => absurd rfl h
  | [a], _ => by intro g hg; simp [chunk3] at hg; subst hg; simp
  | [a, b], _ => by intro g hg; simp [chunk3] at hg; subst hg; simp
  | [a, b, c], _ => by intro g hg; simp [chunk3] at hg; subst hg; simp
  | a :: b :: c :: d :: rest, _ => by
    intro g hg
    rw [show chunk3 (a :: b :: c :: d :: rest)
      = [a, b, c] :: chunk3 (d :: rest) from rfl] at hg
    rcases List.mem_cons.mp hg with rfl | hg2
    · simp
    · exact chunk3_mem_length (d :: rest) (by simp) g hg2

theorem chunk3_mem_subset :
    ∀ l : List Char, ∀ g ∈ chunk3 l, ∀ c ∈ g, c ∈ l
  | [] => by intro g hg c hc; simp [chunk3] at hg; subst hg; simp at hc
  | [a] => by intro g hg c hc; simp [chunk3] at hg; subst hg; exact hc
  | [a, b] => by intro g hg c hc; simp [chunk3] at hg; subst hg; exact hc
  | [a, b, c] => by intro g hg x hx; simp [chunk3] at hg; subst hg; exact hx
  | a :: b :: c :: d :: rest => by
    intro g hg x hx
    rw [show chunk3 (a :: b :: c :: d :: rest)
      = [a, b, c] :: chunk3 (d :: rest) from rfl] at hg
    rcases List.mem_cons.mp hg with rfl | hg2
    · simp only [List.mem_cons, List.not_mem_nil, or_false] at hx
      rcases hx with rfl | rfl | rfl <;> simp
    · have := chunk3_mem_subset (d :: rest) g hg2 x hx
      simp_all

theorem chunk3_dropLast_length :
    ∀ l : List Char, ∀ g ∈ (chunk3 l).dropLast, g.length = 3
  | [] => by simp [chunk3]
  | [_] => by simp [chunk3]
  | [_, _] => by simp [chunk3]
  | [_, _, _] => by simp [chunk3]
  | a :: b :: c :: d :: rest => by
    intro g hg
    rw [show chunk3 (a :: b :: c :: d :: rest)
      = [a, b, c] :: chunk3 (d :: rest) from rfl] at hg
    obtain ⟨y, ys, hys⟩ := List.exists_cons_of_ne_nil (chunk3_ne_nil (d :: rest))
    rw [hys, show ([a, b, c] :: y :: ys).dropLast
      = [a, b, c] :: (y :: ys).dropLast from rfl] at hg
    rcases List.mem_cons.mp hg with rfl | hg2
    · rfl
    · exact chunk3_dropLast_length (d :: rest) g (by rw [hys]; exact hg2)

theorem reverse_tail_eq_dropLast_rev (xs : List String) :
    xs.reverse.tail = xs.dropLast.reverse := by
  cases h : xs.reverse with
  | nil =>
    have hx : xs = [] := by simpa using congrArg List.reverse h
    subst hx; rfl
  | cons y ys =>
    have hx : xs = ys.reverse ++ [y] := by
      have := congrArg List.reverse h
      simpa using this
    subst hx
    simp [List.dropLast_concat]

/-- Every comma group of the dollar display is one to three digits wide. -/
theorem groupsOf_length_bounds (s : String) (hs : s.data ≠ []) :
    ∀ g ∈ groupsOf s, 1 ≤ g.length ∧ g.length ≤ 3 := by
  intro g hg
  rw [groupsOf, List.mem_reverse] at hg
  obtain ⟨gr, hgr, rfl⟩ := List.mem_map.mp hg
  have h := chunk3_mem_length s.data.reverse (by simpa using hs) gr hgr
  simpa [String.length] using h

/-- Every comma group after the leading one is exactly three digits wide. -/
theorem groupsOf_tail_length (s : String) :
    ∀ g ∈ (groupsOf s).tail, g.length = 3 := by
  intro g hg
  rw [groupsOf, reverse_tail_eq_dropLast_rev, List.mem_reverse,
    ← List.map_dropLast] at hg
  obtain ⟨gr, hgr, rfl⟩ := List.mem_map.mp hg
  have h := chunk3_dropLast_length s.data.reverse gr hgr
  simpa [String.length] using h

/-- Groups are made of the characters of the grouped string. -/
theorem groupsOf_chars (s : String) :
    ∀ g ∈ groupsOf s, ∀ c ∈ g.data, c ∈ s.data := by
  intro g hg c hc
  rw [groupsOf, List.mem_reverse] at hg
  obtain ⟨gr, hgr, rfl⟩ := List.mem_map.mp hg
  have hsub := chunk3_mem_subset s.data.reverse gr hgr c
  rw [show (String.mk gr.reverse).data = gr.reverse from rfl,
    List.mem_reverse] at hc
  have := hsub hc
  rwa [List.mem_reverse] at this

/-- The cents field always prints as exactly two characters. -/
theorem pad2_length (n : Nat) (h : n < 100) : (pad2 n).length = 2 := by
  rw [pad2]
  split
  · rw [String.length_append, natToDec_length_one n (by omega)]
    rfl
  · rename_i h10
    have hn : n ≠ 0 := by omega
    rw [natToDec_length n hn]
    have : Nat.log 10 n = 1 :=
      Nat.log_eq_of_pow_le_of_lt_pow (by omega) (by norm_num; omega)
    omega

/-- The cents field is made of digit characters. -/
theorem pad2_digits (n : Nat) : (pad2 n).data.all Char.isDigit = true := by
  rw [pad2]
  split
  · rw [show ("0" ++ natToDec n).data = "0".data ++ (natToDec n).data from rfl,
      List.all_append]
    simp [natToDec_all_digits n]
  · exact natToDec_all_digits n

theorem tsx_rootClass (p : ExpenseCardProps) :
    rootClass (ExpenseCard_tsx p)
      = "expense-card "
        ++ (if p.highlighted.getD false then "expense-card--highlighted"
            else "") := rfl

theorem part0_rootClass (p : ExpenseCardProps) :
    rootClass (ExpenseCard_part0 p)
      = part0ArticleClassBase
        ++ (if p.highlighted.getD false then "border-orange-500 bg-orange-50"
            else "border-blue-500") := rfl

theorem tsx_headerDirectTexts (p : ExpenseCardProps) :
    directTexts (headerNode (ExpenseCard_tsx p)) = ["// UPDATED"] := by
  rcases p with ⟨i, de, am, ca, da, od, hl, sc⟩
  cases od <;> rcases sc with _ | (_ | _) <;> rfl

theorem tsx_bodyDirectTexts (p : ExpenseCardProps) :
    directTexts (bodyNode (ExpenseCard_tsx p)) = ["// UPDATED"] := by
  rcases p with ⟨i, de, am, ca, da, od, hl, sc⟩
  cases od <;> rcases sc with _ | (_ | _) <;> rfl

/-- C1: whenever `onDelete` is supplied, both variants render the delete
control, and one click on it runs the handler trace
`[stopPropagation, invoke id]`: propagation is stopped first, and
`onDelete` is invoked exactly once, with the record's original `id`. -/
theorem C1_delete_click (p : ExpenseCardProps) (h : p.onDelete = true) :
    hasDeleteControl (ExpenseCard_tsx p) = true
      ∧ hasDeleteControl (ExpenseCard_part0 p) = true
      ∧ handleDelete p = [ClickAction.stopPropagation, ClickAction.invoke p.id]
      ∧ (handleDelete p).countP isInvoke = 1
      ∧ (handleDelete p).head? = some ClickAction.stopPropagation := by
  refine ⟨?_, ?_, ?_, ?_, ?_⟩
  · rw [tsx_hasDeleteControl, h]
  · rw [part0_hasDeleteControl, h]
  · simp [handleDelete, h]
  · simp [handleDelete, h, isInvoke]
  · simp [handleDelete, h]

theorem C1_delete_click_witness :
    hasDeleteControl (ExpenseCard_tsx sampleProps) = true
      ∧ hasDeleteControl (ExpenseCard_part0 sampleProps) = true
      ∧ handleDelete sampleProps
        = [ClickAction.stopPropagation, ClickAction.invoke 7]
      ∧ (handleDelete sampleProps).countP isInvoke = 1
      ∧ (handleDelete sampleProps).head? = some ClickAction.stopPropagation :=
  C1_delete_click sampleProps rfl

/-- C2 counterexample: `"0005-03-05"` is date-parseable, yet its render is
`"Mar 5, 5"`, whose year field is not four digits — the rendered text does
not match the claimed `Mon D, YYYY` shape on every valid date. -/
theorem C2_counterexample :
    parseDate "0005-03-05" = some (5, 3, 5)
      ∧ timeTexts (ExpenseCard_tsx ancientDateProps) = ["Mar 5, 5"]
      ∧ matchesMonthDayYear4 "Mar 5, 5" = false := by
  refine ⟨by decide, ?_, by decide⟩
  rw [tsx_timeTexts]
  decide

/-- C2 (amended): on every date-parseable `date`, both variants render the
short month name, a space, the unpadded day, a comma, and the unpadded
year — four digits exactly on years 1000–9999; in particular `2024-03-05`
renders `Mar 5, 2024` and `2023-12-01` renders `Dec 1, 2023`, both of the
`Mon D, YYYY` shape. -/
theorem C2_date_format :
    (∀ (p : ExpenseCardProps) (y m d : Nat),
        parseDate p.date = some (y, m, d) →
          timeTexts (ExpenseCard_tsx p)
            = [monthShort m ++ " " ++ natToDec d ++ ", " ++ natToDec y]
          ∧ timeTexts (ExpenseCard_part0 p)
            = [monthShort m ++ " " ++ natToDec d ++ ", " ++ natToDec y])
      ∧ (∀ y : Nat, 1000 ≤ y → y ≤ 9999 → (natToDec y).length = 4)
      ∧ formattedDate "2024-03-05" = "Mar 5, 2024"
      ∧ formattedDate "2023-12-01" = "Dec 1, 2023"
      ∧ matchesMonthDayYear4 "Mar 5, 2024" = true
      ∧ matchesMonthDayYear4 "Dec 1, 2023" = true := by
  refine ⟨?_, natToDec_length_four, by decide, by decide, by decide, by decide⟩
  intro p y m d h
  constructor
  · rw [tsx_timeTexts]; simp [formattedDate, h]
  · rw [part0_timeTexts]; simp [formattedDate, h]

theorem C2_date_format_witness :
    timeTexts (ExpenseCard_tsx sampleProps) = ["Mar 5, 2024"]
      ∧ (natToDec 2024).length = 4 := by
  have h := C2_date_format
  refine ⟨?_, h.2.1 2024 (by norm_num) (by norm_num)⟩
  have h1 := (h.1 sampleProps 2024 3 5 (by decide)).1
  rw [h1]
  decide

/-- C3: both variants display `formatUSD amount`; the examples of the spec
evaluate as claimed, and for every amount the text is a sign for negative
values, the `$` symbol, the dollar digits in comma groups of one to three
digits (three exactly after the leading group), a dot, and two cent
digits. -/
theorem C3_currency_format :
    (∀ p : ExpenseCardProps,
        pTexts (ExpenseCard_tsx p) = [formatUSD p.amount]
          ∧ pTexts (ExpenseCard_part0 p) = [formatUSD p.amount])
      ∧ formatUSD 123450 = "$1,234.50"
      ∧ formatUSD 0 = "$0.00"
      ∧ formatUSD (-500) = "-$5.00"
      ∧ (∀ cents : Int,
          formatUSD cents
            = (if cents < 0 then "-" else "") ++ "$"
                ++ joinComma (groupsOf (natToDec (cents.natAbs / 100)))
                ++ "." ++ pad2 (cents.natAbs % 100)
          ∧ (pad2 (cents.natAbs % 100)).length = 2
          ∧ (pad2 (cents.natAbs % 100)).data.all Char.isDigit = true
          ∧ (∀ g ∈ groupsOf (natToDec (cents.natAbs / 100)),
              1 ≤ g.length ∧ g.length ≤ 3
                ∧ g.data.all Char.isDigit = true)
          ∧ (∀ g ∈ (groupsOf (natToDec (cents.natAbs / 100))).tail,
              g.length = 3)) := by
  refine ⟨fun p => ⟨tsx_pTexts p, part0_pTexts p⟩,
    by decide, by decide, by decide, ?_⟩
  intro cents
  refine ⟨rfl, pad2_length _ (Nat.mod_lt _ (by norm_num)), pad2_digits _,
    ?_, groupsOf_tail_length _⟩
  intro g hg
  have hb := groupsOf_length_bounds (natToDec (cents.natAbs / 100))
    (natToDec_ne_nil _) g hg
  refine ⟨hb.1, hb.2, ?_⟩
  rw [List.all_eq_true]
  intro c hc
  have hmem := groupsOf_chars (natToDec (cents.natAbs / 100)) g hg c hc
  exact List.all_eq_true.mp (natToDec_all_digits _) c hmem

/-- C4: a delete control is rendered exactly when `onDelete` is supplied,
in both variants. -/
theorem C4_delete_control_iff (p : ExpenseCardProps) :
    hasDeleteControl (ExpenseCard_tsx p) = p.onDelete
      ∧ hasDeleteControl (ExpenseCard_part0 p) = p.onDelete :=
  ⟨tsx_hasDeleteControl p, part0_hasDeleteControl p⟩

/-- C5: with `showCategory = some false` no category badge is rendered,
whatever the category; with `showCategory` omitted the default `true`
applies and the badge shows the raw category value. -/
theorem C5_category_badge (p : ExpenseCardProps) :
    (p.showCategory = some false →
        spanTexts (ExpenseCard_tsx p) = []
          ∧ spanTexts (ExpenseCard_part0 p) = [])
      ∧ (p.showCategory = none →
        spanTexts (ExpenseCard_tsx p) = [p.category.text]
          ∧ spanTexts (ExpenseCard_part0 p) = [p.category.text]) := by
  constructor <;> intro h <;>
    exact ⟨by rw [tsx_spanTexts]; simp [h],
      by rw [part0_spanTexts]; simp [h]⟩

theorem C5_category_badge_witness :
    (spanTexts (ExpenseCard_tsx
        { sampleProps with showCategory := some false }) = []
      ∧ spanTexts (ExpenseCard_part0
        { sampleProps with showCategory := some false }) = [])
      ∧ (spanTexts (ExpenseCard_tsx sampleProps) = ["Food"]
        ∧ spanTexts (ExpenseCard_part0 sampleProps) = ["Food"]) :=
  ⟨(C5_category_badge { sampleProps with showCategory := some false }).1 rfl,
   (C5_category_badge sampleProps).2 rfl⟩

/-- C6: the `.tsx` root carries the `expense-card--highlighted` class token
exactly when `highlighted` resolves to `true` (default `false`); otherwise
the class is the base `expense-card ` alone.  The `part_000` root class is
its base classes plus the orange alternate tokens exactly when
highlighted. -/
theorem C6_highlighted (p : ExpenseCardProps) :
    (("expense-card--highlighted"
        ∈ classTokens (rootClass (ExpenseCard_tsx p)))
      ↔ p.highlighted.getD false = true)
      ∧ (p.highlighted.getD false = false →
          rootClass (ExpenseCard_tsx p) = "expense-card ")
      ∧ rootClass (ExpenseCard_part0 p)
        = part0ArticleClassBase
            ++ (if p.highlighted.getD false then
                  "border-orange-500 bg-orange-50"
                else "border-blue-500") := by
  refine ⟨?_, ?_, part0_rootClass p⟩
  · rw [tsx_rootClass]
    cases hb : p.highlighted.getD false <;> decide
  · intro hf
    rw [tsx_rootClass, hf]
    rfl

theorem C6_highlighted_witness :
    (("expense-card--highlighted"
        ∈ classTokens (rootClass (ExpenseCard_tsx
          { sampleProps with highlighted := some true })))
      ↔ True)
      ∧ rootClass (ExpenseCard_tsx sampleProps) = "expense-card " := by
  constructor
  · have h := (C6_highlighted
      { sampleProps with highlighted := some true }).1
    simpa using h
  · exact (C6_highlighted sampleProps).2.1 rfl

/-- C7: an unparseable `date` raises nothing — the card is still rendered
in full (root article, description, amount, verbatim `dateTime`), with the
platform text `Invalid Date` in the date position of both variants. -/
theorem C7_invalid_date (p : ExpenseCardProps)
    (h : parseDate p.date = none) :
    rootTag (ExpenseCard_tsx p) = "article"
      ∧ timeTexts (ExpenseCard_tsx p) = ["Invalid Date"]
      ∧ timeTexts (ExpenseCard_part0 p) = ["Invalid Date"]
      ∧ timeDateTimes (ExpenseCard_tsx p) = [p.date]
      ∧ h3Texts (ExpenseCard_tsx p) = [p.description]
      ∧ pTexts (ExpenseCard_tsx p) = [formatUSD p.amount] := by
  refine ⟨rfl, ?_, ?_, tsx_timeDateTimes p, tsx_h3Texts p, tsx_pTexts p⟩
  · rw [tsx_timeTexts]; simp [formattedDate, h]
  · rw [part0_timeTexts]; simp [formattedDate, h]

theorem C7_invalid_date_witness :
    rootTag (ExpenseCard_tsx invalidDateProps) = "article"
      ∧ timeTexts (ExpenseCard_tsx invalidDateProps) = ["Invalid Date"]
      ∧ timeTexts (ExpenseCard_part0 invalidDateProps) = ["Invalid Date"]
      ∧ timeDateTimes (ExpenseCard_tsx invalidDateProps) = ["not-a-date"]
      ∧ h3Texts (ExpenseCard_tsx invalidDateProps) = ["Lunch"]
      ∧ pTexts (ExpenseCard_tsx invalidDateProps) = ["$1,234.50"] :=
  C7_invalid_date invalidDateProps (by decide)

/-- C8: rendering is stateless and deterministic — identical props give
identical outputs in both variants, and a render call leaves the (empty)
component state untouched: one call, one output. -/
theorem C8_stateless_deterministic (p q : ExpenseCardProps) (s t : Unit)
    (h : p = q) :
    ExpenseCard_tsx p = ExpenseCard_tsx q
      ∧ ExpenseCard_part0 p = ExpenseCard_part0 q
      ∧ (renderWithState p s).1 = (renderWithState q t).1
      ∧ (renderWithState p s).2 = s := by
  subst h
  exact ⟨rfl, rfl, rfl, rfl⟩

theorem C8_stateless_deterministic_witness :
    ExpenseCard_tsx sampleProps = ExpenseCard_tsx sampleProps
      ∧ ExpenseCard_part0 sampleProps = ExpenseCard_part0 sampleProps
      ∧ (renderWithState sampleProps ()).1
        = (renderWithState sampleProps ()).1
      ∧ (renderWithState sampleProps ()).2 = () :=
  C8_stateless_deterministic sampleProps sampleProps () () rfl

/-- C9 counterexample: at a concrete record the two style-stripped renders
still differ — the `.tsx` body keeps a literal `// UPDATED` text node the
`part_000` body does not have — so the variants are not observationally
equivalent up to styling alone. -/
theorem C9_counterexample :
    directTexts (bodyNode (stripStyle (ExpenseCard_tsx sampleProps)))
      = ["// UPDATED"]
      ∧ directTexts (bodyNode (stripStyle (ExpenseCard_part0 sampleProps)))
        = []
      ∧ stripStyle (ExpenseCard_tsx sampleProps)
        ≠ stripStyle (ExpenseCard_part0 sampleProps) := by
  refine ⟨by decide, by decide, ?_⟩
  intro h
  have h2 := congrArg (fun n => directTexts (bodyNode n)) h
  exact absurd h2 (by decide)

/-- C9 (amended): for every record the two variants agree on all displayed
content and behaviour — date text, description, amount, badge presence and
text, `dateTime` value, delete-control presence (with one shared click
handler) — and their whole trees coincide once styling is erased and the
two `.tsx`-only differences are removed: its literal `// UPDATED` text
nodes and its `×` delete glyph (`x` in `part_000`). -/
theorem C9_equiv_up_to_styling :
    (∀ p : ExpenseCardProps,
        dropUpdatedMarks (stripStyle (ExpenseCard_tsx p))
          = stripStyle (ExpenseCard_part0 p))
      ∧ (∀ p : ExpenseCardProps,
          timeTexts (ExpenseCard_tsx p) = timeTexts (ExpenseCard_part0 p)
            ∧ h3Texts (ExpenseCard_tsx p) = h3Texts (ExpenseCard_part0 p)
            ∧ pTexts (ExpenseCard_tsx p) = pTexts (ExpenseCard_part0 p)
            ∧ spanTexts (ExpenseCard_tsx p)
              = spanTexts (ExpenseCard_part0 p)
            ∧ timeDateTimes (ExpenseCard_tsx p)
              = timeDateTimes (ExpenseCard_part0 p)
            ∧ hasDeleteControl (ExpenseCard_tsx p)
              = hasDeleteControl (ExpenseCard_part0 p)) := by
  refine ⟨strip_eq_norm, fun p => ⟨?_, ?_, ?_, ?_, ?_, ?_⟩⟩
  · rw [tsx_timeTexts, part0_timeTexts]
  · rw [tsx_h3Texts, part0_h3Texts]
  · rw [tsx_pTexts, part0_pTexts]
  · rw [tsx_spanTexts, part0_spanTexts]
  · rw [tsx_timeDateTimes, part0_timeDateTimes]
  · rw [tsx_hasDeleteControl, part0_hasDeleteControl]

/-- C10: the `.tsx` variant always writes the raw `date` prop verbatim into
the `time` element's `dateTime` attribute, and always renders the literal
text `// UPDATED` as a direct child of both the header and the body
`div`. -/
theorem C10_updated_marks (p : ExpenseCardProps) :
    timeDateTimes (ExpenseCard_tsx p) = [p.date]
      ∧ "// UPDATED" ∈ directTexts (headerNode (ExpenseCard_tsx p))
      ∧ "// UPDATED" ∈ directTexts (bodyNode (ExpenseCard_tsx p)) := by
  refine ⟨tsx_timeDateTimes p, ?_, ?_⟩
  · rw [tsx_headerDirectTexts]; exact List.mem_singleton.mpr rfl
  · rw [tsx_bodyDirectTexts]; exact List.mem_singleton.mpr rfl

example : natToDec 1234 = "1234" := by decide
example : parseDate "2024-03-05" = some (2024, 3, 5) := by decide
example : parseDate "2024-02-30" = none := by decide
example : parseDate "not-a-date" = none := by decide
example : formattedDate "2024-03-05" = "Mar 5, 2024" := by decide
example : formattedDate "2023-12-01" = "Dec 1, 2023" := by decide
example : formatUSD 123450 = "$1,234.50" := by decide
example : formatUSD 0 = "$0.00" := by decide
example : formatUSD (-500) = "-$5.00" := by decide

end ExpenseTracker
